import Mathlib

/-
Verification development for the Synapse disruption-resolution core.

Shallow embedding notes:
- Python floats in the source are embedded as exact rationals (ℚ); every
  constant occurring in the code (0.6, 0.8, 0.05, ...) is decimal-exact,
  so no rounding questions arise for the properties proved here.
- Python's substring test `kw in text` is embedded as `strContains` on
  `List Char`; Python's `text.lower()` is `lowerChars`.
- Fallible operations (the LM Studio gateway call, the graph invocation)
  are embedded as `Except String _` values supplied by the environment.
-/

/-- Python `needle in hay` on character lists: `needle` occurs as a
contiguous substring of `hay`. -/
def charInfixIn (needle : List Char) : List Char → Bool
  | [] => needle.isEmpty
  | c :: t => needle.isPrefixOf (c :: t) || charInfixIn needle t

/-- Python `str.lower()` applied before keyword scans. -/
def lowerChars (s : String) : List Char := s.data.map Char.toLower

/-- Python `needle in hay` where `hay` has already been lowercased. -/
def strContains (hay : List Char) (needle : String) : Bool :=
  charInfixIn needle.data hay

/-- Python `any(word in text for word in words)`. -/
def anyKeyword (hay : List Char) (words : List String) : Bool :=
  words.any (fun w => strContains hay w)

/-! ## config/settings.py -/

/-- Embedding of `Config.HUMAN_ESCALATION_THRESHOLD` default (settings.py line 15). -/
def HUMAN_ESCALATION_THRESHOLD : ℚ := 6/10

/-- Embedding of `Config.CONFIDENCE_THRESHOLD` default (settings.py line 14). -/
def CONFIDENCE_THRESHOLD : ℚ := 8/10

/-- Embedding of `Config.MAX_ITERATIONS` default (settings.py line 13). -/
def MAX_ITERATIONS : Nat := 10

/-! ## orchestrator/langgraph_orchestrator.py — workflow state machine -/

/-- The three labels `_should_escalate` can return. -/
inductive ValidateNext
  | escalate
  | retry
  | communicate
deriving DecidableEq, Repr

/-- Embedding of `LogisticsOrchestrator._should_escalate`: decision logic for routing
after solution validation, keyed on the latest confidence score. -/
def shouldEscalate (confidence : ℚ) : ValidateNext :=
  if confidence < HUMAN_ESCALATION_THRESHOLD then .escalate
  else if confidence < CONFIDENCE_THRESHOLD then .retry
  else .communicate

/-- Nodes of the workflow graph built by `_build_workflow_graph`, plus the
distinguished END node. -/
inductive WorkflowNode
  | disruption_analysis
  | route_to_specialist
  | execute_specialist_task
  | validate_solution
  | customer_communication
  | escalate_to_human
  | finalize_solution
  | endNode
deriving DecidableEq, Repr

/-- The edge map of `_build_workflow_graph`: static edges plus the
conditional edges out of `validate_solution`, which map the label returned
by `_should_escalate` through `{escalate ↦ escalate_to_human,
communicate ↦ customer_communication, retry ↦ execute_specialist_task}`. -/
def stepNode (n : WorkflowNode) (v : ValidateNext) : WorkflowNode :=
  match n with
  | .disruption_analysis => .route_to_specialist
  | .route_to_specialist => .execute_specialist_task
  | .execute_specialist_task => .validate_solution
  | .validate_solution =>
      match v with
      | .escalate => .escalate_to_human
      | .retry => .execute_specialist_task
      | .communicate => .customer_communication
  | .customer_communication => .finalize_solution
  | .escalate_to_human => .endNode
  | .finalize_solution => .endNode
  | .endNode => .endNode

/-- Successor of a node when the latest confidence score is `c`. -/
def nextNode (n : WorkflowNode) (c : ℚ) : WorkflowNode :=
  stepNode n (shouldEscalate c)

lemma shouldEscalate_of_lt {c : ℚ} (h : c < 6/10) :
    shouldEscalate c = .escalate := by
  unfold shouldEscalate HUMAN_ESCALATION_THRESHOLD
  rw [if_pos h]

lemma shouldEscalate_of_mid {c : ℚ} (h1 : 6/10 ≤ c) (h2 : c < 8/10) :
    shouldEscalate c = .retry := by
  unfold shouldEscalate HUMAN_ESCALATION_THRESHOLD CONFIDENCE_THRESHOLD
  rw [if_neg (not_lt.mpr h1), if_pos h2]

lemma shouldEscalate_of_ge {c : ℚ} (h : 8/10 ≤ c) :
    shouldEscalate c = .communicate := by
  unfold shouldEscalate HUMAN_ESCALATION_THRESHOLD CONFIDENCE_THRESHOLD
  rw [if_neg (not_lt.mpr (le_trans (by norm_num) h)), if_neg (not_lt.mpr h)]

/-- C1: the transition out of validate_solution is decided by the latest
confidence `c` against the default thresholds 0.6 and 0.8: `c < 0.6` goes
to escalate_to_human, `0.6 ≤ c < 0.8` re-enters execute_specialist_task
(retry), `c ≥ 0.8` goes to customer_communication, whose sole outgoing
edge leads unconditionally to finalize_solution.  Concretely, 0.55
escalates, 0.75 retries, 0.85 communicates, and the boundary values 0.6
and 0.8 fall into the band taking them as inclusive lower bound (0.6 →
retry, 0.8 → communicate). -/
theorem c1_validate_transition :
    (∀ c : ℚ, c < 6/10 → nextNode .validate_solution c = .escalate_to_human) ∧
    (∀ c : ℚ, 6/10 ≤ c → c < 8/10 →
      nextNode .validate_solution c = .execute_specialist_task) ∧
    (∀ c : ℚ, 8/10 ≤ c → nextNode .validate_solution c = .customer_communication) ∧
    (∀ c : ℚ, nextNode .customer_communication c = .finalize_solution) ∧
    nextNode .validate_solution (6/10) = .execute_specialist_task ∧
    nextNode .validate_solution (8/10) = .customer_communication := by
  refine ⟨fun c h => ?_, fun c h1 h2 => ?_, fun c h => ?_, fun c => rfl, ?_, ?_⟩
  · rw [nextNode, shouldEscalate_of_lt h]; rfl
  · rw [nextNode, shouldEscalate_of_mid h1 h2]; rfl
  · rw [nextNode, shouldEscalate_of_ge h]; rfl
  · rw [nextNode, shouldEscalate_of_mid (by norm_num) (by norm_num)]; rfl
  · rw [nextNode, shouldEscalate_of_ge (by norm_num)]; rfl

/-- C1 witness: the three bands of `c1_validate_transition` instantiated
at the concrete confidences 0.55, 0.75 and 0.85 named in the claim. -/
theorem c1_validate_transition_w :
    nextNode .validate_solution (11/20) = .escalate_to_human ∧
    nextNode .validate_solution (3/4) = .execute_specialist_task ∧
    nextNode .validate_solution (17/20) = .customer_communication ∧
    nextNode .customer_communication (17/20) = .finalize_solution :=
  ⟨c1_validate_transition.1 (11/20) (by norm_num),
   c1_validate_transition.2.1 (3/4) (by norm_num) (by norm_num),
   c1_validate_transition.2.2.1 (17/20) (by norm_num),
   c1_validate_transition.2.2.2.1 (17/20)⟩

/-! ## core/multi_model_orchestrator.py — scheduler switch accounting -/

/-- The two fields of `MultiModelOrchestrator` mutated while executing the
routed task list: `current_loaded_model` (initially `None`) and
`model_switch_count` (initially 0). -/
structure SchedState where
  current_loaded_model : Option String
  model_switch_count : Nat
deriving DecidableEq, Repr

/-- Initial scheduler state set up in `MultiModelOrchestrator.__init__`. -/
def initSchedState : SchedState := ⟨none, 0⟩

/-- Embedding of `MultiModelOrchestrator._switch_model`: load `newModel` and count one
switch when it differs from the currently loaded model. -/
def switchModel (s : SchedState) (newModel : String) : SchedState :=
  if some newModel ≠ s.current_loaded_model then
    { current_loaded_model := some newModel,
      model_switch_count := s.model_switch_count + 1 }
  else s

/-- One iteration of the loop in `execute_multi_model_analysis`: switch
to the task's optimal model if it differs from the loaded one. -/
def execStep (s : SchedState) (optimalModel : String) : SchedState :=
  if some optimalModel ≠ s.current_loaded_model then switchModel s optimalModel
  else s

/-- The backend-switching effect of executing the routed task list in
order (the gateway calls themselves do not touch these two fields). -/
def execSwitches (s : SchedState) (models : List String) : SchedState :=
  models.foldl execStep s

/-- Number of adjacent pairs in execution order whose backend names
differ (the quantity the claim equates with the switch count). -/
def adjacentDiffs : List String → Nat
  | [] => 0
  | [_] => 0
  | a :: b :: t => (if a ≠ b then 1 else 0) + adjacentDiffs (b :: t)

lemma execSwitches_count_from (ms : List String) :
    ∀ (a : String) (k : Nat),
      (execSwitches ⟨some a, k⟩ ms).model_switch_count = k + adjacentDiffs (a :: ms) := by
  induction ms with
  | nil => intro a k; simp [execSwitches, adjacentDiffs]
  | cons m t ih =>
      intro a k
      by_cases hma : m = a
      · subst hma
        have hstep : execStep ⟨some m, k⟩ m = ⟨some m, k⟩ := by
          simp [execStep]
        calc (execSwitches ⟨some m, k⟩ (m :: t)).model_switch_count
            = (execSwitches ⟨some m, k⟩ t).model_switch_count := by
              simp [execSwitches, List.foldl_cons, hstep]
          _ = k + adjacentDiffs (m :: t) := ih m k
          _ = k + adjacentDiffs (m :: m :: t) := by simp [adjacentDiffs]
      · have hstep : execStep ⟨some a, k⟩ m = ⟨some m, k + 1⟩ := by
          simp [execStep, switchModel, Option.some_inj, hma]
        calc (execSwitches ⟨some a, k⟩ (m :: t)).model_switch_count
            = (execSwitches ⟨some m, k + 1⟩ t).model_switch_count := by
              simp [execSwitches, List.foldl_cons, hstep]
          _ = (k + 1) + adjacentDiffs (m :: t) := ih m (k + 1)
          _ = k + adjacentDiffs (a :: m :: t) := by
              simp [adjacentDiffs, Ne.symm, hma]
              omega

/-- C2 counterexample: on the task list `[A, A, B, A]` the executed
scheduler reaches `switch_count = 3`, while the number of adjacent pairs
with differing backends is 2 — the first task already incurs a switch
from the initially unset backend, so the claimed equality fails. -/
theorem c2_switch_count_cex :
    (execSwitches initSchedState ["A", "A", "B", "A"]).model_switch_count = 3 ∧
    adjacentDiffs ["A", "A", "B", "A"] = 2 ∧
    (execSwitches initSchedState ["A", "A", "B", "A"]).model_switch_count ≠
      adjacentDiffs ["A", "A", "B", "A"] := by
  refine ⟨by decide, by decide, by decide⟩

/-- C2 (amended): a switch is performed exactly when a task's backend
differs from the currently loaded one, with `current_backend` initially
unset and `switch_count` initially 0; hence after one execution of a
non-empty task list, `switch_count` equals the number of adjacent task
pairs with differing backends **plus one** (the initial load of the first
task's backend also counts as a switch).  Consecutive tasks on the same
backend incur no switch, and `[A, A, B, A]` yields a switch count of 3. -/
theorem c2_switch_count :
    (∀ ms : List String, ms ≠ [] →
      (execSwitches initSchedState ms).model_switch_count = adjacentDiffs ms + 1) ∧
    (execSwitches initSchedState ["A", "A", "B", "A"]).model_switch_count = 3 := by
  constructor
  · intro ms hne
    match ms, hne with
    | m :: t, _ =>
        have hstep : execStep initSchedState m = ⟨some m, 1⟩ := by
          simp [execStep, initSchedState, switchModel]
        calc (execSwitches initSchedState (m :: t)).model_switch_count
            = (execSwitches ⟨some m, 1⟩ t).model_switch_count := by
              simp [execSwitches, List.foldl_cons, hstep]
          _ = 1 + adjacentDiffs (m :: t) := execSwitches_count_from t m 1
          _ = adjacentDiffs (m :: t) + 1 := Nat.add_comm _ _
  · decide

/-- C2 witness: the amended count law applied to the concrete task list
`[A, A, B, A]` of the claim. -/
theorem c2_switch_count_w :
    (execSwitches initSchedState ["A", "A", "B", "A"]).model_switch_count =
      adjacentDiffs ["A", "A", "B", "A"] + 1 :=
  c2_switch_count.1 ["A", "A", "B", "A"] (by decide)

/-! ## core/model_capability.py — task-to-backend router -/

/-- The `TaskType` enumeration. -/
inductive TaskType
  | route_optimization
  | customer_communication
  | strategic_planning
  | sentiment_analysis
  | emergency_response
deriving DecidableEq, Repr

/-- Embedding of `LogisticsModelManager.task_model_mapping`. -/
def taskModelMapping : TaskType → String
  | .route_optimization => "qwen/qwen3-4b-thinking-2507"
  | .customer_communication => "microsoft/phi-4-mini-reasoning"
  | .strategic_planning => "deepseek/deepseek-r1-0528-qwen3-8b"
  | .sentiment_analysis => "google/gemma-3-4b"
  | .emergency_response => "qwen/qwen3-1.7b"

/-- Embedding of `LogisticsModelManager.get_model_for_task` (every `TaskType` is a key
of `task_model_mapping`, so the default is never taken). -/
def getModelForTask (t : TaskType) : String := taskModelMapping t

/-- One entry of the `recommended_tasks` list built by
`analyze_problem_requirements`: task kind, chosen model, priority tier. -/
structure TaskRec where
  task : TaskType
  model : String
  priority : String
deriving DecidableEq, Repr

/-- A `recommended_tasks` entry as appended by the router. -/
def mkTask (t : TaskType) (p : String) : TaskRec :=
  ⟨t, getModelForTask t, p⟩

/-- Routing keywords scanned by `analyze_problem_requirements`. -/
def routeKeywords : List String := ["traffic", "route", "location", "delivery"]

/-- Customer-communication keywords scanned by the router. -/
def commKeywords : List String := ["customer", "notification", "communication"]

/-- Negative-sentiment keywords scanned by the router. -/
def sentimentKeywords : List String := ["angry", "frustrated", "complaint"]

/-- Embedding of `LogisticsModelManager.analyze_problem_requirements`: the ordered
`recommended_tasks` list derived from the lowercased description and the
urgency tag. -/
def analyzeProblemRequirements (description urgency : String) : List TaskRec :=
  let d := lowerChars description
  let t1 : List TaskRec :=
    if anyKeyword d routeKeywords then [mkTask .route_optimization "high"] else []
  let t2 := t1 ++
    (if anyKeyword d commKeywords then [mkTask .customer_communication "high"] else [])
  let t3 := t2 ++
    (if anyKeyword d sentimentKeywords then [mkTask .sentiment_analysis "medium"] else [])
  let t4 := t3 ++
    (if 1 < t3.length || urgency == "high" || urgency == "complex" then
      [mkTask .strategic_planning "high"] else [])
  t4 ++
    (if urgency == "high" || strContains d "emergency" then
      [mkTask .emergency_response "critical"] else [])

/-- Claim-side router contract, stated in the spec's words: each of the
first three tasks is emitted iff its keyword group fires; the
strategic-planning task is appended iff more than one task was already
emitted or urgency is high/complex; the emergency-response task is
appended iff urgency is high or the description contains an emergency
marker; in exactly that insertion order. -/
def routerSpecTasks (description urgency : String) : List TaskRec :=
  let d := lowerChars description
  let r := anyKeyword d routeKeywords
  let c := anyKeyword d commKeywords
  let s := anyKeyword d sentimentKeywords
  let emitted : Nat := (cond r 1 0) + (cond c 1 0) + (cond s 1 0)
  (if r then [mkTask .route_optimization "high"] else []) ++
  (if c then [mkTask .customer_communication "high"] else []) ++
  (if s then [mkTask .sentiment_analysis "medium"] else []) ++
  (if 1 < emitted || urgency == "high" || urgency == "complex" then
    [mkTask .strategic_planning "high"] else []) ++
  (if urgency == "high" || strContains d "emergency" then
    [mkTask .emergency_response "critical"] else [])

/-- C3: for every disruption context, the router's emitted task list is
exactly the one characterized by the claim's five rules in insertion
order (`routerSpecTasks`), no task kind appears twice, and the end-to-end
scenario (description with traffic, customer and angry keywords, urgency
high) yields all five kinds in order with their models and priorities. -/
theorem c3_router_emission :
    (∀ description urgency : String,
      analyzeProblemRequirements description urgency =
        routerSpecTasks description urgency) ∧
    (∀ description urgency : String,
      ((analyzeProblemRequirements description urgency).map TaskRec.task).Nodup) ∧
    analyzeProblemRequirements "Heavy traffic jam, customer angry" "high" =
      [mkTask .route_optimization "high",
       mkTask .customer_communication "high",
       mkTask .sentiment_analysis "medium",
       mkTask .strategic_planning "high",
       mkTask .emergency_response "critical"] := by
  refine ⟨fun d u => ?_, fun d u => ?_, by decide⟩
  · simp only [analyzeProblemRequirements, routerSpecTasks]
    cases hr : anyKeyword (lowerChars d) routeKeywords <;>
      cases hc : anyKeyword (lowerChars d) commKeywords <;>
        cases hs : anyKeyword (lowerChars d) sentimentKeywords <;>
          simp
  · simp only [analyzeProblemRequirements]
    cases hr : anyKeyword (lowerChars d) routeKeywords <;>
      cases hc : anyKeyword (lowerChars d) commKeywords <;>
        cases hs : anyKeyword (lowerChars d) sentimentKeywords <;>
          cases hu1 : u == "high" <;>
            cases hu2 : u == "complex" <;>
              cases he : strContains (lowerChars d) "emergency" <;>
                simp <;> decide

/-! ## core/multi_model_orchestrator.py — confidence aggregation -/

/-- One element of the `task_results` list consumed by
`_calculate_multi_model_confidence`: backend used, priority tier,
confidence score. -/
structure TaskResult where
  model : String
  priority : String
  confidence : ℚ
deriving DecidableEq, Repr

/-- The `priority_weights` dictionary lookup (`.get(priority, 0.5)`). -/
def priorityWeight (p : String) : ℚ :=
  if p = "critical" then 1
  else if p = "high" then 4/5
  else if p = "medium" then 3/5
  else 1/2

/-- Embedding of `MultiModelOrchestrator._calculate_multi_model_confidence`. -/
def calcMultiModelConfidence (rs : List TaskResult) : ℚ :=
  if rs.isEmpty then 0
  else
    let weightedSum := (rs.map (fun r => r.confidence * priorityWeight r.priority)).sum
    let totalWeight := (rs.map (fun r => priorityWeight r.priority)).sum
    let base := if 0 < totalWeight then weightedSum / totalWeight else 0
    let uniqueModels := (rs.map TaskResult.model).dedup.length
    let diversityBonus := min (15/100) ((uniqueModels : ℚ) * (3/100))
    min (95/100) (base + diversityBonus)

/-- Claim-side tier weights, defined only on the three tiers the claim
names (critical/high/medium). -/
def tierWeight (p : String) : ℚ :=
  if p = "critical" then 1
  else if p = "high" then 4/5
  else if p = "medium" then 3/5
  else 0

/-- Claim-side weighted mean of per-task confidences by the tier weights
`{critical: 1.0, high: 0.8, medium: 0.6}` of `tierWeight`. -/
def specWeightedMean (rs : List TaskResult) : ℚ :=
  (rs.map (fun r => r.confidence * tierWeight r.priority)).sum /
    (rs.map (fun r => tierWeight r.priority)).sum

/-- Claim-side diversity bonus `min(0.15, 0.03 × distinct backends)`. -/
def specDiversityBonus (rs : List TaskResult) : ℚ :=
  min (15/100) (((rs.map TaskResult.model).dedup.length : ℚ) * (3/100))

/-- The claim's concrete three-result list: (critical, 0.9),
(high, 0.8), (medium, 0.7) over two distinct backends. -/
def c4Results : List TaskResult :=
  [⟨"backend-a", "critical", 9/10⟩,
   ⟨"backend-b", "high", 4/5⟩,
   ⟨"backend-a", "medium", 7/10⟩]

lemma priorityWeight_ge_half (p : String) : (1:ℚ)/2 ≤ priorityWeight p := by
  unfold priorityWeight
  split_ifs <;> norm_num

lemma totalWeight_pos {rs : List TaskResult} (h : rs ≠ []) :
    0 < (rs.map (fun r => priorityWeight r.priority)).sum := by
  match rs, h with
  | r :: t, _ =>
      have h1 : (0:ℚ) ≤ (t.map (fun r => priorityWeight r.priority)).sum := by
        refine List.sum_nonneg ?_
        intro x hx
        obtain ⟨r', _, rfl⟩ := List.mem_map.mp hx
        exact le_trans (by norm_num) (priorityWeight_ge_half _)
      have h2 : (0:ℚ) < priorityWeight r.priority :=
        lt_of_lt_of_le (by norm_num) (priorityWeight_ge_half _)
      simpa [List.map_cons, List.sum_cons] using add_pos_of_pos_of_nonneg h2 h1

lemma tierWeight_critical : tierWeight "critical" = 1 := by
  unfold tierWeight; rw [if_pos rfl]

lemma tierWeight_high : tierWeight "high" = 4/5 := by
  unfold tierWeight; rw [if_neg (by decide), if_pos rfl]

lemma tierWeight_medium : tierWeight "medium" = 3/5 := by
  unfold tierWeight; rw [if_neg (by decide), if_neg (by decide), if_pos rfl]

lemma calcMultiModelConfidence_eq {rs : List TaskResult} (h : rs ≠ [])
    (htier : ∀ r ∈ rs,
      r.priority = "critical" ∨ r.priority = "high" ∨ r.priority = "medium") :
    calcMultiModelConfidence rs =
      min (95/100) (specWeightedMean rs + specDiversityBonus rs) := by
  have hw : ∀ r ∈ rs, priorityWeight r.priority = tierWeight r.priority := by
    intro r hr
    rcases htier r hr with h1 | h1 | h1 <;> simp [priorityWeight, tierWeight, h1]
  have hmap1 : rs.map (fun r => r.confidence * priorityWeight r.priority) =
      rs.map (fun r => r.confidence * tierWeight r.priority) :=
    List.map_congr_left (fun r hr => by rw [hw r hr])
  have hmap2 : rs.map (fun r => priorityWeight r.priority) =
      rs.map (fun r => tierWeight r.priority) :=
    List.map_congr_left (fun r hr => hw r hr)
  have hpos := totalWeight_pos h
  have hpos2 : 0 < (rs.map (fun r => tierWeight r.priority)).sum := hmap2 ▸ hpos
  have hne : rs.isEmpty = false := by
    cases rs with
    | nil => exact absurd rfl h
    | cons a l => rfl
  unfold calcMultiModelConfidence specWeightedMean specDiversityBonus
  rw [hne]
  simp only [Bool.false_eq_true, if_false, hmap1, hmap2, if_pos hpos2]

lemma calcMultiModelConfidence_nonneg {rs : List TaskResult} (h : rs ≠ [])
    (hconf : ∀ r ∈ rs, 0 ≤ r.confidence ∧ r.confidence ≤ 1) :
    0 ≤ calcMultiModelConfidence rs := by
  have hne : rs.isEmpty = false := by
    cases rs with
    | nil => exact absurd rfl h
    | cons a l => rfl
  have hpos := totalWeight_pos h
  have hws : (0:ℚ) ≤ (rs.map (fun r => r.confidence * priorityWeight r.priority)).sum := by
    refine List.sum_nonneg ?_
    intro x hx
    obtain ⟨r', hr', rfl⟩ := List.mem_map.mp hx
    exact mul_nonneg (hconf r' hr').1
      (le_trans (by norm_num) (priorityWeight_ge_half _))
  unfold calcMultiModelConfidence
  rw [hne]
  simp only [Bool.false_eq_true, if_false, if_pos hpos]
  refine le_min (by norm_num) (add_nonneg (div_nonneg hws (le_of_lt hpos)) ?_)
  exact le_min (by norm_num) (by positivity)

lemma c4_parts_eval :
    specWeightedMean c4Results + specDiversityBonus c4Results = 263/300 := by
  have hd : ((["backend-a", "backend-b", "backend-a"] : List String)).dedup.length
      = 2 := by decide
  unfold specWeightedMean specDiversityBonus c4Results
  simp only [List.map_cons, List.map_nil, List.sum_cons, List.sum_nil,
    tierWeight_critical, tierWeight_high, tierWeight_medium, hd]
  rw [min_eq_right (by norm_num)]
  norm_num

/-- C4: on a non-empty result list whose tiers are among
critical/high/medium and whose confidences lie in [0, 1], the Synthesizer's
aggregated confidence equals
`min(0.95, weighted_mean + min(0.15, 0.03 × distinct backends))` with tier
weights {critical: 1, high: 0.8, medium: 0.6}, and lies in [0, 0.95]; for
the three results (critical, 0.9), (high, 0.8), (medium, 0.7) over two
distinct backends it equals
`min(0.95, (0.9·1.0 + 0.8·0.8 + 0.7·0.6)/2.4 + 0.06) = 263/300`. -/
theorem c4_synthesis_confidence :
    (∀ rs : List TaskResult, rs ≠ [] →
      (∀ r ∈ rs,
        r.priority = "critical" ∨ r.priority = "high" ∨ r.priority = "medium") →
      (∀ r ∈ rs, 0 ≤ r.confidence ∧ r.confidence ≤ 1) →
      calcMultiModelConfidence rs =
        min (95/100) (specWeightedMean rs + specDiversityBonus rs) ∧
      0 ≤ calcMultiModelConfidence rs ∧
      calcMultiModelConfidence rs ≤ 95/100) ∧
    calcMultiModelConfidence c4Results =
      min (95/100) ((9/10 * 1 + 4/5 * (4/5) + 7/10 * (3/5)) / (12/5) + 3/50) ∧
    calcMultiModelConfidence c4Results = 263/300 := by
  have henn : c4Results ≠ [] := by simp [c4Results]
  have htier : ∀ r ∈ c4Results,
      r.priority = "critical" ∨ r.priority = "high" ∨ r.priority = "medium" := by
    intro r hr
    fin_cases hr <;> simp
  have hcalc : calcMultiModelConfidence c4Results = 263/300 := by
    rw [calcMultiModelConfidence_eq henn htier, c4_parts_eval,
      min_eq_right (by norm_num)]
  refine ⟨fun rs h htier hconf =>
      ⟨calcMultiModelConfidence_eq h htier,
       calcMultiModelConfidence_nonneg h hconf,
       ?_⟩, ?_, hcalc⟩
  · rw [calcMultiModelConfidence_eq h htier]
    exact min_le_left _ _
  · rw [hcalc, min_eq_right (by norm_num)]
    norm_num

/-- C4 witness: the aggregation law of `c4_synthesis_confidence` applied
to the claim's concrete three-result list. -/
theorem c4_synthesis_confidence_w :
    calcMultiModelConfidence c4Results =
      min (95/100) (specWeightedMean c4Results + specDiversityBonus c4Results) ∧
    0 ≤ calcMultiModelConfidence c4Results :=
  ⟨(c4_synthesis_confidence.1 c4Results (by simp [c4Results])
      (by intro r hr; fin_cases hr <;> simp)
      (by intro r hr; fin_cases hr <;> norm_num)).1,
   (c4_synthesis_confidence.1 c4Results (by simp [c4Results])
      (by intro r hr; fin_cases hr <;> simp)
      (by intro r hr; fin_cases hr <;> norm_num)).2.1⟩

/-! ## core/llm_manager.py — backend gateway wrapper -/

/-- Embedding of `LogisticsModelManager.urgency_model_map` lookup with the
`get(..., "qwen/qwen3-4b")` default. -/
def getModelByUrgency (u : String) : String :=
  if u = "urgent" then "qwen/qwen3-1.7b"
  else if u = "medium" then "microsoft/phi-4-mini-reasoning"
  else if u = "complex" then "deepseek/deepseek-r1-0528-qwen3-8b"
  else if u = "customer" then "microsoft/phi-4-mini-reasoning"
  else if u = "spatial" then "qwen/qwen3-4b-thinking-2507"
  else "qwen/qwen3-4b"

/-- Embedding of `LogisticsModelManager.agent_task_mapping` as a nested lookup. -/
def agentTaskMapping (agent taskKind : String) : Option TaskType :=
  if agent = "grabfood" then
    if taskKind = "primary" then some .route_optimization
    else if taskKind = "customer_comm" then some .customer_communication
    else if taskKind = "fallback" then some .emergency_response
    else none
  else if agent = "grabexpress" then
    if taskKind = "primary" then some .strategic_planning
    else if taskKind = "spatial" then some .route_optimization
    else if taskKind = "fallback" then some .emergency_response
    else none
  else if agent = "customer_service" then
    if taskKind = "primary" then some .customer_communication
    else if taskKind = "sentiment" then some .sentiment_analysis
    else if taskKind = "fallback" then some .emergency_response
    else none
  else if agent = "orchestrator" then
    if taskKind = "primary" then some .strategic_planning
    else if taskKind = "coordination" then some .route_optimization
    else none
  else none

/-- Embedding of `LogisticsModelManager.get_model_for_agent` (default
`"qwen/qwen3-4b"` when the agent or task kind is unmapped). -/
def getModelForAgent (agent taskKind : String) : String :=
  match agentTaskMapping agent taskKind with
  | some t => taskModelMapping t
  | none => "qwen/qwen3-4b"

/-- Embedding of `LMStudioManager.get_optimal_model_for_agent`. -/
def getOptimalModelForAgent (agent urgency : String) : String :=
  if urgency = "urgent" then getModelByUrgency "urgent"
  else if urgency = "complex" then getModelByUrgency "complex"
  else getModelForAgent agent "primary"

/-- Embedding of `quality_indicators` table in `LMStudioManager._calculate_confidence`
(`.get(agent_type, [])`). -/
def qualityIndicators (agentType : String) : List String :=
  if agentType = "grabfood" then
    ["restaurant", "delivery", "food", "temperature", "quality"]
  else if agentType = "grabexpress" then
    ["package", "urgent", "secure", "delivery", "address"]
  else if agentType = "customer_service" then
    ["understand", "sorry", "help", "solution", "resolve"]
  else if agentType = "orchestrator" then
    ["coordinate", "assign", "prioritize", "allocate", "manage"]
  else []

/-- Embedding of `uncertainty_words` in `LMStudioManager._calculate_confidence`. -/
def uncertaintyWords : List String :=
  ["uncertain", "maybe", "possibly", "might", "unclear"]

/-- Embedding of `LMStudioManager._calculate_confidence`: start at 0.8, adjust for
length, quality keywords and hedging keywords, clamp to [0.1, 0.95]. -/
def calculateConfidence (content : String) (agentType : String) : ℚ :=
  let b1 : ℚ := 8/10
  let b2 := if 100 < content.length then b1 + 5/100
            else if content.length < 50 then b1 - 1/10
            else b1
  let lower := lowerChars content
  let b3 := if anyKeyword lower (qualityIndicators agentType) then b2 + 1/10 else b2
  let b4 := if anyKeyword lower uncertaintyWords then b3 - 15/100 else b3
  max (1/10) (min (95/100) b4)

/-- C5: the specialist confidence computation — base 0.8, +0.05 for
length > 100, −0.1 for length < 50, +0.1 for an agent-specific quality
keyword, −0.15 for a hedging keyword, clamped to [0.1, 0.95] — always
returns a value in [0.1, 0.95], for every generated text and every agent
type. -/
theorem c5_confidence_bounds :
    ∀ (content : String) (agentType : String),
      1/10 ≤ calculateConfidence content agentType ∧
      calculateConfidence content agentType ≤ 95/100 := by
  intro content agentType
  dsimp only [calculateConfidence]
  exact ⟨le_max_left _ _, max_le (by norm_num) (min_le_left _ _)⟩

/-- The single mutable field of `LMStudioManager` relevant to model
selection: `current_active_model`, set once in `__init__`. -/
structure LMState where
  current_active_model : String
deriving DecidableEq, Repr

/-- Embedding of `LMStudioManager.__init__` sets `current_active_model` to the
default `"qwen/qwen3-4b"`. -/
def initLMState : LMState := ⟨"qwen/qwen3-4b"⟩

/-- The request issued to the chat-completions endpoint: the `model=`
parameter passed is always `current_active_model`. -/
structure GatewayRequest where
  model : String
  prompt : String
deriving DecidableEq, Repr

/-- The request `generate_response_for_agent` builds for the gateway. -/
def requestFor (lm : LMState) (prompt : String) : GatewayRequest :=
  ⟨lm.current_active_model, prompt⟩

/-- The result dictionary returned by `generate_response_for_agent`
(success) or `_fallback_response` (gateway failure). -/
structure AgentResponse where
  content : String
  provider : String
  active_model : String
  optimal_model : Option String
  agent_type : String
  confidence : ℚ
  error : Option String
deriving DecidableEq, Repr

/-- Embedding of `fallback_responses` table in `LMStudioManager._fallback_response`
(`.get(agent_type, "System temporarily unavailable.")`). -/
def fallbackContent (agentType : String) : String :=
  if agentType = "grabfood" then
    "Food delivery analysis temporarily unavailable. Escalating to human food delivery coordinator."
  else if agentType = "grabexpress" then
    "Express delivery system offline. Switching to standard delivery protocols."
  else if agentType = "customer_service" then
    "We\x27re experiencing technical difficulties but are working to resolve your issue promptly."
  else if agentType = "orchestrator" then
    "Coordination system temporarily offline. Switching to manual oversight mode."
  else "System temporarily unavailable."

/-- Embedding of `LMStudioManager._fallback_response`: fixed message per agent type,
confidence 0.2, error string attached. -/
def fallbackResponse (agentType err : String) : AgentResponse :=
  { content := fallbackContent agentType
    provider := "lm_studio_fallback"
    active_model := "fallback"
    optimal_model := none
    agent_type := agentType
    confidence := 2/10
    error := some err }

/-- Embedding of `LMStudioManager.generate_response_for_agent`: build the request with
the currently active model, call the gateway, and either return the scored
result (reporting the computed optimal model only in `optimal_model`) or
catch the failure and return the fallback result. -/
def generateResponseForAgent (lm : LMState) (agentType prompt urgency : String)
    (gateway : GatewayRequest → Except String String) : AgentResponse :=
  let optimalModel := getOptimalModelForAgent agentType urgency
  match gateway (requestFor lm prompt) with
  | .ok content =>
      { content := content
        provider := "lm_studio"
        active_model := lm.current_active_model
        optimal_model := some optimalModel
        agent_type := agentType
        confidence := calculateConfidence content agentType
        error := none }
  | .error e => fallbackResponse agentType e

/-- C8: whenever the gateway call inside `generate_response_for_agent`
fails, the failure is absorbed at the call site and the returned value is
the fallback result — a fixed human-readable message per agent type,
confidence 0.2, and the error string attached — for every prompt, agent
type and urgency; no exception reaches the caller. -/
theorem c8_gateway_fallback :
    (∀ (lm : LMState) (agentType prompt urgency : String)
        (gateway : GatewayRequest → Except String String) (e : String),
      gateway (requestFor lm prompt) = .error e →
      generateResponseForAgent lm agentType prompt urgency gateway =
        fallbackResponse agentType e) ∧
    (∀ agentType e : String,
      (fallbackResponse agentType e).confidence = 2/10 ∧
      (fallbackResponse agentType e).error = some e ∧
      (fallbackResponse agentType e).content = fallbackContent agentType) ∧
    fallbackContent "grabfood" =
      "Food delivery analysis temporarily unavailable. Escalating to human food delivery coordinator." ∧
    fallbackContent "grabexpress" =
      "Express delivery system offline. Switching to standard delivery protocols." ∧
    fallbackContent "customer_service" =
      "We\x27re experiencing technical difficulties but are working to resolve your issue promptly." ∧
    fallbackContent "orchestrator" =
      "Coordination system temporarily offline. Switching to manual oversight mode." := by
  refine ⟨fun lm agentType prompt urgency gateway e h => ?_,
    fun agentType e => ⟨rfl, rfl, rfl⟩, by decide, by decide, by decide, by decide⟩
  simp only [generateResponseForAgent, h]

/-- C8 witness: a concrete failing gateway call is converted into the
grabfood fallback result. -/
theorem c8_gateway_fallback_w :
    generateResponseForAgent initLMState "grabfood" "p" "medium"
        (fun _ => .error "connection refused") =
      fallbackResponse "grabfood" "connection refused" :=
  c8_gateway_fallback.1 initLMState "grabfood" "p" "medium"
    (fun _ => .error "connection refused") "connection refused" rfl

/-! ## cross-component state: scheduler switches vs. gateway model -/

/-- The combined mutable state of a `MultiModelOrchestrator` and the
`LMStudioManager` it holds. -/
structure SystemState where
  sched : SchedState
  lm : LMState
deriving DecidableEq, Repr

/-- Embedding of `_switch_model` acting on the combined state: it assigns
`current_loaded_model` and `model_switch_count` on the orchestrator and
touches nothing else. -/
def systemSwitchModel (s : SystemState) (newModel : String) : SystemState :=
  { sched := switchModel s.sched newModel, lm := s.lm }

/-- A sequence of scheduler switches applied in order. -/
def applySwitches (s : SystemState) (ms : List String) : SystemState :=
  ms.foldl systemSwitchModel s

lemma applySwitches_lm (ms : List String) :
    ∀ s : SystemState, (applySwitches s ms).lm = s.lm := by
  induction ms with
  | nil => intro s; rfl
  | cons m t ih =>
      intro s
      have h1 : applySwitches s (m :: t) = applySwitches (systemSwitchModel s m) t := rfl
      rw [h1, ih (systemSwitchModel s m)]
      rfl

/-- C10: backend switches mutate only the orchestrator's own fields and
leave `LMStudioManager.current_active_model` unchanged; every gateway
request built by `generate_response_for_agent` carries
`current_active_model` as its model parameter, while the computed optimal
model is only reported in the result's `optimal_model` field — so after
any sequence of scheduler switches the model name sent to the gateway is
unchanged, and from the initial state it is always `"qwen/qwen3-4b"`. -/
theorem c10_switch_frame :
    (∀ (s : SystemState) (ms : List String), (applySwitches s ms).lm = s.lm) ∧
    (∀ (s : SystemState) (ms : List String) (prompt : String),
      requestFor (applySwitches s ms).lm prompt = requestFor s.lm prompt) ∧
    (∀ (lm : LMState) (agentType prompt urgency : String)
        (gateway : GatewayRequest → Except String String) (content : String),
      gateway (requestFor lm prompt) = .ok content →
      (generateResponseForAgent lm agentType prompt urgency gateway).active_model =
        lm.current_active_model ∧
      (generateResponseForAgent lm agentType prompt urgency gateway).optimal_model =
        some (getOptimalModelForAgent agentType urgency)) ∧
    (∀ (ms : List String) (prompt : String),
      (requestFor (applySwitches ⟨initSchedState, initLMState⟩ ms).lm prompt).model =
        "qwen/qwen3-4b") := by
  refine ⟨fun s ms => applySwitches_lm ms s,
    fun s ms prompt => by rw [applySwitches_lm ms s],
    fun lm agentType prompt urgency gateway content h => ?_,
    fun ms prompt => by rw [applySwitches_lm ms _]; rfl⟩
  constructor <;> simp only [generateResponseForAgent, h]

/-- C10 witness: concrete switch sequence and successful gateway call —
after three switches the request model is still the initial
`"qwen/qwen3-4b"`, and a successful call reports `active_model` from the
manager state while `optimal_model` only carries the computed one. -/
theorem c10_switch_frame_w :
    (requestFor (applySwitches ⟨initSchedState, initLMState⟩
        ["qwen/qwen3-1.7b", "google/gemma-3-4b", "qwen/qwen3-1.7b"]).lm "p").model =
      "qwen/qwen3-4b" ∧
    (generateResponseForAgent initLMState "grabfood" "p" "medium"
        (fun _ => .ok "done")).active_model = "qwen/qwen3-4b" ∧
    (generateResponseForAgent initLMState "grabfood" "p" "medium"
        (fun _ => .ok "done")).optimal_model =
      some (getOptimalModelForAgent "grabfood" "medium") :=
  ⟨c10_switch_frame.2.2.2 ["qwen/qwen3-1.7b", "google/gemma-3-4b", "qwen/qwen3-1.7b"] "p",
   (c10_switch_frame.2.2.1 initLMState "grabfood" "p" "medium"
      (fun _ => .ok "done") "done" rfl).1,
   (c10_switch_frame.2.2.1 initLMState "grabfood" "p" "medium"
      (fun _ => .ok "done") "done" rfl).2⟩

/-! ## agents/service_agents.py — urgency classifiers -/

/-- Number of fired boolean signals (Python `sum(factors[...])`). -/
def countTrue (l : List Bool) : Nat := (l.filter id).length

/-- The task fields `GrabFoodAgent._determine_urgency` inspects. -/
structure FoodTask where
  urgency : String
  affected_orders : Nat
  disruption : String
  severity : String
deriving DecidableEq, Repr

/-- The description keywords among the food agent's "urgent" signals. -/
def foodUrgentKeywords : List String :=
  ["food poisoning", "temperature", "contamination", "expired"]

/-- The `factors["urgent"]` signal list of `GrabFoodAgent._determine_urgency`. -/
def foodUrgentSignals (t : FoodTask) : List Bool :=
  let d := lowerChars t.disruption
  [t.urgency == "high",
   decide (10 < t.affected_orders),
   strContains d "food poisoning",
   strContains d "temperature",
   strContains d "contamination",
   strContains d "expired"]

/-- The `factors["complex"]` signal list of `GrabFoodAgent._determine_urgency`. -/
def foodComplexSignals (t : FoodTask) : List Bool :=
  let d := lowerChars t.disruption
  [decide (5 < t.affected_orders),
   strContains d "multiple",
   t.severity == "high",
   strContains d "restaurant" && strContains d "closed"]

/-- Embedding of `GrabFoodAgent._determine_urgency`. -/
def foodDetermineUrgency (t : FoodTask) : String :=
  if 2 ≤ countTrue (foodUrgentSignals t) then "urgent"
  else if 2 ≤ countTrue (foodComplexSignals t) then "complex"
  else "medium"

/-- The task fields `GrabExpressAgent._determine_urgency` inspects. -/
structure ExpressTask where
  urgency : String
  package_value : Nat
  package_type : String
  disruption : String
  fragile : Bool
deriving DecidableEq, Repr

/-- The description keywords among the express agent's "urgent" signals. -/
def expressUrgentKeywords : List String := ["emergency", "time-sensitive"]

/-- The `factors["urgent"]` signal list of `GrabExpressAgent._determine_urgency`. -/
def expressUrgentSignals (t : ExpressTask) : List Bool :=
  let d := lowerChars t.disruption
  [t.urgency == "high",
   decide (50000 < t.package_value),
   strContains (lowerChars t.package_type) "medical",
   strContains d "emergency",
   strContains d "time-sensitive"]

/-- The `factors["complex"]` signal list of `GrabExpressAgent._determine_urgency`. -/
def expressComplexSignals (t : ExpressTask) : List Bool :=
  let d := lowerChars t.disruption
  [t.fragile,
   strContains d "multiple",
   decide (10000 < t.package_value),
   strContains d "wrong address"]

/-- Embedding of `GrabExpressAgent._determine_urgency`. -/
def expressDetermineUrgency (t : ExpressTask) : String :=
  if 2 ≤ countTrue (expressUrgentSignals t) then "urgent"
  else if 2 ≤ countTrue (expressComplexSignals t) then "complex"
  else "medium"

/-- Number of an agent's "urgent" description keywords occurring in a
task description (the quantity the claim's second clause counts). -/
def urgentKeywordCount (description : String) (kws : List String) : Nat :=
  countTrue (kws.map (fun w => strContains (lowerChars description) w))

/-- C6 counterexample: a food task whose description contains zero of the
food agent's urgent keywords is still classified `urgent`, because two
non-keyword urgent signals fire (`urgency == "high"` and
`affected_orders > 10`) — refuting the claim's clause that zero-or-one
urgent keywords in the description forces a non-urgent classification. -/
theorem c6_urgency_cex :
    foodDetermineUrgency ⟨"high", 11, "", ""⟩ = "urgent" ∧
    urgentKeywordCount "" foodUrgentKeywords = 0 := by
  constructor <;> decide

/-- C6 (amended): for both the food and express classifiers, the result
is `urgent` iff at least two of the agent's urgent signals fire — where
the signals include the non-keyword checks on the urgency field and on
affected-order count / package value / package type, not only description
keywords; when fewer than two urgent signals fire, the result is
`complex` if at least two complex signals fire and `medium` otherwise. -/
theorem c6_urgency_rule :
    (∀ t : FoodTask,
      (foodDetermineUrgency t = "urgent" ↔ 2 ≤ countTrue (foodUrgentSignals t)) ∧
      (countTrue (foodUrgentSignals t) < 2 →
        foodDetermineUrgency t =
          if 2 ≤ countTrue (foodComplexSignals t) then "complex" else "medium")) ∧
    (∀ t : ExpressTask,
      (expressDetermineUrgency t = "urgent" ↔
        2 ≤ countTrue (expressUrgentSignals t)) ∧
      (countTrue (expressUrgentSignals t) < 2 →
        expressDetermineUrgency t =
          if 2 ≤ countTrue (expressComplexSignals t) then "complex" else "medium")) := by
  constructor
  · intro t
    constructor
    · unfold foodDetermineUrgency
      split_ifs with h1 h2 <;> simp [h1]
    · intro h
      unfold foodDetermineUrgency
      rw [if_neg (by omega)]
  · intro t
    constructor
    · unfold expressDetermineUrgency
      split_ifs with h1 h2 <;> simp [h1]
    · intro h
      unfold expressDetermineUrgency
      rw [if_neg (by omega)]

/-- C6 witness: the amended rule applied to concrete tasks — a food task
with two urgent signals is `urgent`; an express task with one urgent and
two complex signals is `complex`. -/
theorem c6_urgency_rule_w :
    foodDetermineUrgency ⟨"high", 0, "food poisoning reported", ""⟩ = "urgent" ∧
    expressDetermineUrgency ⟨"low", 20000, "", "fragile antique, multiple stops", true⟩ =
      (if 2 ≤ countTrue (expressComplexSignals
          ⟨"low", 20000, "", "fragile antique, multiple stops", true⟩)
        then "complex" else "medium") :=
  ⟨((c6_urgency_rule.1 ⟨"high", 0, "food poisoning reported", ""⟩).1).mpr (by decide),
   (c6_urgency_rule.2 ⟨"low", 20000, "", "fragile antique, multiple stops", true⟩).2
     (by decide)⟩

/-! ## orchestrator/langgraph_orchestrator.py — top-level entry point -/

/-- The solution record carried in `final_solution`. -/
structure FinalSolution where
  solution : String
  confidence : ℚ
deriving DecidableEq, Repr

/-- The fields of the result dictionary `process_disruption` hands back
to its caller (besides the echoed disruption). -/
structure WorkflowResultState where
  final_solution : FinalSolution
  escalation_needed : Bool
  confidence_score : ℚ
deriving DecidableEq, Repr

/-- The error-state result built in the `except` branch of
`process_disruption`: an error-bearing solution, `escalation_needed`
set, and confidence 0.1. -/
def errorResultState (e : String) : WorkflowResultState :=
  { final_solution := { solution := "System error: " ++ e, confidence := 1/10 }
    escalation_needed := true
    confidence_score := 1/10 }

/-- Embedding of `LogisticsOrchestrator.process_disruption`: run the workflow graph;
on success pass its final state through, and on any exception escaping
the state machine return the error state instead of re-raising.  The
second component records the `error` key (present only on failure). -/
def processDisruption (run : Except String WorkflowResultState) :
    WorkflowResultState × Option String :=
  match run with
  | .ok s => (s, none)
  | .error e => (errorResultState e, some e)

/-- C7: `process_disruption` is total over both outcomes of the graph
invocation — the caller always receives a well-formed result.  On an
unexpected exception `e` the result carries `escalation_needed = true`,
confidence 0.1 at both levels, and an error-bearing solution embedding
`e`; on success the workflow's own final state is returned unchanged. -/
theorem c7_top_level_recovery :
    (∀ (run : Except String WorkflowResultState) (e : String),
      run = .error e →
      processDisruption run = (errorResultState e, some e) ∧
      (errorResultState e).escalation_needed = true ∧
      (errorResultState e).confidence_score = 1/10 ∧
      (errorResultState e).final_solution.confidence = 1/10 ∧
      (errorResultState e).final_solution.solution = "System error: " ++ e) ∧
    (∀ (run : Except String WorkflowResultState) (s : WorkflowResultState),
      run = .ok s → processDisruption run = (s, none)) := by
  refine ⟨fun run e h => ?_, fun run s h => ?_⟩
  · subst h; exact ⟨rfl, rfl, rfl, rfl, rfl⟩
  · subst h; rfl

/-- C7 witness: a concrete workflow fault is converted into the
escalation-carrying error result. -/
theorem c7_top_level_recovery_w :
    processDisruption (.error "division by zero") =
      (errorResultState "division by zero", some "division by zero") ∧
    (errorResultState "division by zero").escalation_needed = true :=
  ⟨(c7_top_level_recovery.1 (.error "division by zero") "division by zero" rfl).1,
   (c7_top_level_recovery.1 (.error "division by zero") "division by zero" rfl).2.1⟩

/-! ## retry bounding: the graph invocation's recursion limit -/

/-- Modelled from the spec: the graph engine itself (langgraph) is not in
the repository; per the spec's design notes the retry path is bounded
only by "a generic recursion limit", which `process_disruption` passes as
`{"recursion_limit": 50}`.  `runSteps v fuel n k` executes nodes
sequentially from `n` with `k` specialist invocations so far, one fuel
unit per node, returning the recursion error when fuel runs out before
an end node, together with the number of `execute_specialist_task`
invocations performed. -/
def runSteps (v : ValidateNext) : Nat → WorkflowNode → Nat → Option String × Nat
  | 0, n, k => if n = .endNode then (none, k) else (some "GraphRecursionError", k)
  | fuel+1, n, k =>
      if n = .endNode then (none, k)
      else runSteps v fuel (stepNode n v)
        (if n = .execute_specialist_task then k + 1 else k)

/-- A whole workflow run from the entry point with confidence constantly
`c` at every validation, under the recursion limit `limit`. -/
def runWorkflow (c : ℚ) (limit : Nat) : Option String × Nat :=
  runSteps (shouldEscalate c) limit .disruption_analysis 0

/-- C9 counterexample: with confidence constantly 0.7 (inside the retry
band) the workflow re-invokes the specialist 24 times — more than the
configured `MAX_ITERATIONS = 10`, which the orchestrator never consults —
before the recursion limit of 50 aborts the run. -/
theorem c9_retry_bound_cex :
    runWorkflow (7/10) 50 = (some "GraphRecursionError", 24) ∧
    MAX_ITERATIONS = 10 ∧
    MAX_ITERATIONS < (runWorkflow (7/10) 50).2 := by
  have h : shouldEscalate (7/10) = .retry :=
    shouldEscalate_of_mid (by norm_num) (by norm_num)
  have h2 : runWorkflow (7/10) 50 = (some "GraphRecursionError", 24) := by
    unfold runWorkflow
    rw [h]
    decide
  exact ⟨h2, rfl, by rw [h2]; decide⟩

/-- C9 (amended): the retry path is bounded and the workflow terminates,
but the bound in force is the graph invocation's recursion limit of 50
steps — not the configured maximum retry count `MAX_ITERATIONS = 10`,
which is never consulted.  With confidence persistently in the retry
band the run performs exactly 24 specialist invocations, then aborts
with a recursion error that `process_disruption` converts into a
terminal escalation result; in general the number of specialist
invocations never exceeds the fuel available. -/
theorem c9_retry_bound :
    (∀ c : ℚ, 6/10 ≤ c → c < 8/10 →
      runWorkflow c 50 = (some "GraphRecursionError", 24)) ∧
    (∀ (v : ValidateNext) (fuel : Nat) (n : WorkflowNode) (k : Nat),
      (runSteps v fuel n k).2 ≤ k + fuel) ∧
    (processDisruption (.error "GraphRecursionError")).1.escalation_needed = true ∧
    (processDisruption (.error "GraphRecursionError")).1.confidence_score = 1/10 := by
  refine ⟨fun c h1 h2 => ?_, fun v fuel => ?_, rfl, rfl⟩
  · unfold runWorkflow
    rw [shouldEscalate_of_mid h1 h2]
    decide
  · induction fuel with
    | zero =>
        intro n k
        unfold runSteps
        split <;> simp
    | succ f ih =>
        intro n k
        unfold runSteps
        split
        · simp
        · refine le_trans (ih _ _) ?_
          split <;> omega

/-- C9 witness: the amended bound applied at the concrete retry-band
confidence 0.7 and at the concrete entry-point run. -/
theorem c9_retry_bound_w :
    runWorkflow (7/10) 50 = (some "GraphRecursionError", 24) ∧
    (runSteps .retry 50 .disruption_analysis 0).2 ≤ 0 + 50 :=
  ⟨c9_retry_bound.1 (7/10) (by norm_num) (by norm_num),
   c9_retry_bound.2.1 .retry 50 .disruption_analysis 0⟩
